import Mathlib

/-!
Shallow embedding of `mqtt.go` from the go-mqttconn repository: an adapter
wrapping an MQTT client into a `net.PacketConn`-style interface, with topic
addresses, an inbound message queue, and read/write deadlines.

Go `time.Time` is modelled as an integer instant (nanoseconds); the Go zero
value is instant 0 and `IsZero` tests for it, `Sub` is integer subtraction.
Byte slices are lists of naturals; Go `copy` and the `byte(...)` cast are
modelled explicitly.  Effects on the underlying MQTT client (publish calls,
subscribe calls) are recorded in explicit effect records, and the behaviour
of a publish completion token is an oracle parameter.
-/

namespace Mqttconn

/-- Model of Go `time.Time`: an instant in nanoseconds.  The Go zero value
is `⟨0⟩`. -/
structure Time where
  ns : Int
deriving Repr, DecidableEq

/-- Go `time.Time.IsZero`: true exactly for the zero value. -/
def Time.isZero (t : Time) : Bool := t.ns == 0

/-- Go `t.Sub(now)`: the signed duration from `now` to `t`. -/
def Time.sub (t now : Time) : Int := t.ns - now.ns

/-- Model of a Go `net.Addr` value: a pair of its `Network()` tag and its
`String()` rendering. -/
structure NetAddr where
  network : String
  render : String
deriving Repr, DecidableEq

/-- `TopicAddr` from mqtt.go: a topic name as a `net.Addr` whose
`Network()` is the constant "mqttTopic" and whose `String()` is the topic
itself. -/
def TopicAddr (topic : String) : NetAddr :=
  { network := "mqttTopic", render := topic }

/-- An inbound MQTT message as seen by the subscription callback: its topic
and payload bytes (`mqtt.Message`). -/
structure MqttMessage where
  topic : String
  payload : List Nat
deriving Repr, DecidableEq

/-- The adapter state `MQTTConn` from mqtt.go.  The embedded `mqtt.Client`
is an abstract handle (a number); `readChan` holds the queued inbound
messages in FIFO order and `readChanCap` its fixed capacity. -/
structure MQTTConn where
  client : Nat
  defaultTopicSet : Bool
  defaultTopic : String
  defaultQoS : Int
  readDeadline : Time
  writeDeadline : Time
  readChan : List MqttMessage
  readChanCap : Nat
deriving Repr, DecidableEq

/-- Errors returned by the adapter: a plain `errors.New` error, the
repository's `mqttError` (carrying its `isTimeout` marker and message), or
an error surfaced as-is from the client's publish token. -/
inductive ConnError where
  | goErr : String → ConnError
  | mqttErr : Bool → String → ConnError
  | transport : String → ConnError
deriving Repr, DecidableEq

/-- The `net.Error`-style is-timeout marker: `mqttError.Timeout()` returns
the stored flag; the other error kinds carry no timeout marker. -/
def ConnError.isTimeoutError : ConnError → Bool
  | .mqttErr b _ => b
  | _ => false

/-- Go `byte(x)` applied to an `int`: truncation to the low 8 bits. -/
def goByte (x : Int) : Nat := (x % 256).toNat

/-- Go `copy(dst, src)` on byte slices: the first `min |dst| |src|` bytes of
`dst` are replaced by those of `src`, the rest of `dst` is unchanged. -/
def goCopy (dst src : List Nat) : List Nat :=
  src.take (min dst.length src.length) ++ dst.drop (min dst.length src.length)

/-- One `Publish` call made on the underlying client: topic, QoS byte,
retained flag and payload. -/
structure PublishCall where
  topic : String
  qos : Nat
  retained : Bool
  payload : List Nat
deriving Repr, DecidableEq

/-- The I/O performed by a write call: the list of publish calls issued on
the underlying client. -/
structure WriteEffects where
  publishes : List PublishCall
deriving Repr, DecidableEq

/-- Oracle for the behaviour of the token returned by `Publish`:
whether the publish completes within the allotted wait, and the error the
token records on completion (`none` = success).  While the publish is still
in flight the token's `Error()` is nil. -/
structure TokenBehavior where
  completesInTime : Bool
  finalErr : Option String
deriving Repr, DecidableEq

/-- The single `Publish` call issued by `WriteTo` once the address family
check has passed: on `addr.String()`, at `byte(conn.defaultQoS)`,
non-retained, with payload `b`.  It is issued before the deadline is
inspected. -/
def publishEffect (conn : MQTTConn) (b : List Nat) (addr : NetAddr) :
    WriteEffects :=
  ⟨[⟨addr.render, goByte conn.defaultQoS, false, b⟩]⟩

/-- `MQTTConn.WriteTo` from mqtt.go.  Checks the address family, issues the
publish, then either waits (no deadline), fails at once when the deadline
has already elapsed, or waits with a bound — whose expiry the source
ignores — and finally inspects the token's error.  `now` is the value of
`time.Now()` at the call; the result is ((bytes written, error), effects).
-/
def WriteTo (conn : MQTTConn) (b : List Nat) (addr : NetAddr) (now : Time)
    (tok : TokenBehavior) : (Nat × Option ConnError) × WriteEffects :=
  if addr.network ≠ (TopicAddr "").network then
    ((0, some (.goErr "unexpected net.Addr.Network() value")), ⟨[]⟩)
  else if conn.writeDeadline.isZero then
    match tok.finalErr with
    | some e => ((0, some (.transport e)), publishEffect conn b addr)
    | none => ((b.length, none), publishEffect conn b addr)
  else if conn.writeDeadline.sub now ≤ 0 then
    ((0, some (.mqttErr true "publish timed out")), publishEffect conn b addr)
  else
    match (if tok.completesInTime then tok.finalErr else none) with
    | some e => ((0, some (.transport e)), publishEffect conn b addr)
    | none => ((b.length, none), publishEffect conn b addr)

/-- `MQTTConn.Write` from mqtt.go: addressed write to the default topic. -/
def Write (conn : MQTTConn) (b : List Nat) (now : Time)
    (tok : TokenBehavior) : (Nat × Option ConnError) × WriteEffects :=
  WriteTo conn b (TopicAddr conn.defaultTopic) now tok

/-- Which arm of the `select` in `ReadFrom` fires first, when both are
possible: a message is received from the queue, or the deadline timer
fires. -/
inductive ReadOutcome where
  | msgArrived
  | timerFired
deriving Repr, DecidableEq

/-- The values returned by a completed `ReadFrom` call: byte count, source
address (nil = `none`), error, and the caller's buffer contents after the
call. -/
structure ReadReturn where
  n : Nat
  addr : Option NetAddr
  err : Option ConnError
  buf : List Nat
deriving Repr, DecidableEq

/-- The timeout error built by `ReadFrom`. -/
def readTimedOut : ConnError := .mqttErr true "read timed out"

/-- Dequeue of the head message in `ReadFrom`'s select: copy into the
caller's buffer, return the count, the topic address and no error, and
remove the message from the queue. -/
def deliverMsg (conn : MQTTConn) (p : List Nat) (msg : MqttMessage)
    (rest : List MqttMessage) : ReadReturn × MQTTConn :=
  ({ n := min p.length msg.payload.length,
     addr := some (TopicAddr msg.topic),
     err := none,
     buf := goCopy p msg.payload },
   { conn with readChan := rest })

/-- `MQTTConn.ReadFrom` from mqtt.go.  With no read deadline the timeout
channel never fires, so the call delivers the queued head message or blocks
(`none`, not representable as a return).  With a deadline, an elapsed
deadline fails immediately; otherwise the queue races the timer, decided by
`race`. -/
def ReadFrom (conn : MQTTConn) (p : List Nat) (now : Time)
    (race : ReadOutcome) : Option (ReadReturn × MQTTConn) :=
  if conn.readDeadline.isZero then
    match conn.readChan with
    | msg :: rest => some (deliverMsg conn p msg rest)
    | [] => none
  else if conn.readDeadline.sub now ≤ 0 then
    some ({ n := 0, addr := none, err := some readTimedOut, buf := p }, conn)
  else
    match race, conn.readChan with
    | .timerFired, _ =>
        some ({ n := 0, addr := none, err := some readTimedOut, buf := p },
              conn)
    | .msgArrived, msg :: rest => some (deliverMsg conn p msg rest)
    | .msgArrived, [] => none

/-- The subscriptions registered during a call: (topic, qos) pairs. -/
structure CreateEffects where
  subscribeCalls : List (String × Nat)
deriving Repr, DecidableEq

/-- `CreateMQTTConn` from mqtt.go: wraps an existing client handle,
allocating an inbound channel of capacity 2; every other field takes its Go
zero value, the error is nil and no subscription is performed. -/
def CreateMQTTConn (client : Nat) :
    (MQTTConn × Option ConnError) × CreateEffects :=
  ((⟨client, false, "", 0, ⟨0⟩, ⟨0⟩, [], 2⟩, none), ⟨[]⟩)

/-- `MQTTConn.SetDeadline` from mqtt.go: sets both deadlines, returns nil. -/
def SetDeadline (conn : MQTTConn) (t : Time) : MQTTConn × Option ConnError :=
  ({ conn with readDeadline := t, writeDeadline := t }, none)

/-- `MQTTConn.SetReadDeadline` from mqtt.go: sets the read deadline only. -/
def SetReadDeadline (conn : MQTTConn) (t : Time) :
    MQTTConn × Option ConnError :=
  ({ conn with readDeadline := t }, none)

/-- `MQTTConn.SetWriteDeadline` from mqtt.go: sets the write deadline
only. -/
def SetWriteDeadline (conn : MQTTConn) (t : Time) :
    MQTTConn × Option ConnError :=
  ({ conn with writeDeadline := t }, none)

/-- C1, counterexample: with the write deadline at instant 5 and the call at
instant 10, `WriteTo` does fail with the timeout error, but the underlying
publish IS attempted — the publish call is issued before the deadline check,
so the effect list is not empty, contradicting the claim as stated. -/
theorem writeTo_past_deadline_counterexample :
    (WriteTo ⟨0, false, "", 0, ⟨0⟩, ⟨5⟩, [], 2⟩ [1, 2] (TopicAddr "t") ⟨10⟩
        ⟨true, none⟩).1.2 =
      some (ConnError.mqttErr true "publish timed out")
    ∧ ¬ (WriteTo ⟨0, false, "", 0, ⟨0⟩, ⟨5⟩, [], 2⟩ [1, 2] (TopicAddr "t")
        ⟨10⟩ ⟨true, none⟩).2.publishes = [] := by
  constructor
  · rfl
  · decide

/-- C1, amended: for every payload, matching-family destination, and write
deadline that is set and strictly in the past at the time of the call,
`WriteTo` fails immediately with a timeout error (is-timeout marker true)
and zero bytes written, without waiting for the publish to complete; the
publish call itself is nonetheless issued (before the deadline check). -/
theorem writeTo_past_deadline (conn : MQTTConn) (b : List Nat)
    (addr : NetAddr) (now : Time) (tok : TokenBehavior)
    (hfam : addr.network = "mqttTopic")
    (hset : conn.writeDeadline.isZero = false)
    (hpast : conn.writeDeadline.sub now < 0) :
    WriteTo conn b addr now tok =
      ((0, some (ConnError.mqttErr true "publish timed out")),
       publishEffect conn b addr)
    ∧ (ConnError.mqttErr true "publish timed out").isTimeoutError = true := by
  refine ⟨?_, rfl⟩
  unfold WriteTo
  rw [if_neg (by simp [TopicAddr, hfam])]
  rw [if_neg (by simp [hset])]
  rw [if_pos (le_of_lt hpast)]

/-- C1, witness for the amended theorem at a concrete input. -/
theorem writeTo_past_deadline_witness :
    WriteTo ⟨0, false, "", 0, ⟨0⟩, ⟨5⟩, [], 2⟩ [1, 2] (TopicAddr "t") ⟨10⟩
        ⟨true, none⟩ =
      ((0, some (ConnError.mqttErr true "publish timed out")),
       publishEffect ⟨0, false, "", 0, ⟨0⟩, ⟨5⟩, [], 2⟩ [1, 2]
         (TopicAddr "t"))
    ∧ (ConnError.mqttErr true "publish timed out").isTimeoutError = true :=
  writeTo_past_deadline _ _ _ _ _ rfl rfl (by decide)

/-- C2: the code slip, evaluated.  Write deadline at instant 100, call at
instant 0 (deadline not yet elapsed), and a publish that does not complete
within the remaining time and has recorded no error: `WriteTo` returns
success — payload length 3 and a nil error — instead of the timeout error
that the spec (and the net.PacketConn deadline contract it implements)
requires, because the source ignores the Boolean result of
`token.WaitTimeout`. -/
theorem writeTo_wait_expiry_returns_success :
    (WriteTo ⟨0, false, "", 0, ⟨0⟩, ⟨100⟩, [], 2⟩ [7, 8, 9] (TopicAddr "t")
        ⟨0⟩ ⟨false, none⟩).1 = (3, none) := by
  decide

/-- C3: with a read deadline that is set and strictly in the past,
`ReadFrom` fails immediately with the timeout error (is-timeout marker
true); the adapter state — its inbound queue included — and the caller's
buffer are returned unchanged, regardless of how the select race would have
resolved. -/
theorem readFrom_past_deadline (conn : MQTTConn) (p : List Nat) (now : Time)
    (race : ReadOutcome)
    (hset : conn.readDeadline.isZero = false)
    (hpast : conn.readDeadline.sub now < 0) :
    ReadFrom conn p now race =
      some ({ n := 0, addr := none, err := some readTimedOut, buf := p },
            conn)
    ∧ readTimedOut.isTimeoutError = true := by
  refine ⟨?_, rfl⟩
  unfold ReadFrom
  rw [if_neg (by simp [hset])]
  rw [if_pos (le_of_lt hpast)]

/-- C3, witness: read deadline 5, call at instant 10, one message pending in
the queue; the call fails with the timeout error and the message is still
queued afterwards. -/
theorem readFrom_past_deadline_witness :
    ReadFrom ⟨0, false, "", 0, ⟨5⟩, ⟨0⟩, [⟨"a", [1]⟩], 2⟩ [9, 9] ⟨10⟩
        .msgArrived =
      some ({ n := 0, addr := none, err := some readTimedOut,
              buf := [9, 9] },
            ⟨0, false, "", 0, ⟨5⟩, ⟨0⟩, [⟨"a", [1]⟩], 2⟩)
    ∧ readTimedOut.isTimeoutError = true :=
  readFrom_past_deadline _ _ _ _ rfl (by decide)

/-- C4: with a configured default destination `D`, `Write` returns the same
result and has the same effects as `WriteTo` addressed to `D` rendered as a
topic address. -/
theorem write_eq_writeTo (conn : MQTTConn) (b : List Nat) (now : Time)
    (tok : TokenBehavior) (D : String)
    (hset : conn.defaultTopicSet = true)
    (hD : conn.defaultTopic = D) :
    Write conn b now tok = WriteTo conn b (TopicAddr D) now tok := by
  unfold Write
  rw [hD]

/-- C4, witness at a concrete adapter with default destination "d". -/
theorem write_eq_writeTo_witness :
    Write ⟨0, true, "d", 0, ⟨0⟩, ⟨0⟩, [], 2⟩ [1] ⟨0⟩ ⟨true, none⟩ =
      WriteTo ⟨0, true, "d", 0, ⟨0⟩, ⟨0⟩, [], 2⟩ [1] (TopicAddr "d") ⟨0⟩
        ⟨true, none⟩ :=
  write_eq_writeTo _ _ _ _ "d" rfl rfl

/-- C6: a destination whose address-family tag is not "mqttTopic" makes
`WriteTo` fail with the address-type error (which carries no timeout
marker), report zero bytes written, and issue no publish call. -/
theorem writeTo_addr_family_mismatch (conn : MQTTConn) (b : List Nat)
    (addr : NetAddr) (now : Time) (tok : TokenBehavior)
    (hfam : addr.network ≠ "mqttTopic") :
    WriteTo conn b addr now tok =
      ((0, some (ConnError.goErr "unexpected net.Addr.Network() value")),
       ⟨[]⟩)
    ∧ (ConnError.goErr
        "unexpected net.Addr.Network() value").isTimeoutError = false := by
  refine ⟨?_, rfl⟩
  unfold WriteTo
  rw [if_pos (by simp [TopicAddr, hfam])]

/-- C6, witness: a "udp"-family address is rejected with no publish. -/
theorem writeTo_addr_family_mismatch_witness :
    WriteTo ⟨0, false, "", 0, ⟨0⟩, ⟨0⟩, [], 2⟩ [1] ⟨"udp", "t"⟩ ⟨0⟩
        ⟨true, none⟩ =
      ((0, some (ConnError.goErr "unexpected net.Addr.Network() value")),
       ⟨[]⟩)
    ∧ (ConnError.goErr
        "unexpected net.Addr.Network() value").isTimeoutError = false :=
  writeTo_addr_family_mismatch _ _ _ _ _ (by decide)

/-- Helper: `goCopy` never changes the length of the destination buffer. -/
theorem goCopy_length (dst src : List Nat) :
    (goCopy dst src).length = dst.length := by
  unfold goCopy
  simp only [List.length_append, List.length_take, List.length_drop]
  omega

/-- Helper: the first `min |dst| |src|` bytes of the copied buffer are those
of the source. -/
theorem goCopy_take (dst src : List Nat) :
    (goCopy dst src).take (min dst.length src.length) =
      src.take (min dst.length src.length) := by
  unfold goCopy
  exact List.take_left' (by simp only [List.length_take]; omega)

/-- Helper: beyond the first `min |dst| |src|` bytes the destination buffer
is unchanged by `goCopy`. -/
theorem goCopy_drop (dst src : List Nat) :
    (goCopy dst src).drop (min dst.length src.length) =
      dst.drop (min dst.length src.length) := by
  unfold goCopy
  exact List.drop_left' (by simp only [List.length_take]; omega)

/-- C5: when `ReadFrom` dequeues the head message (deadline unset, or set
and not yet elapsed, with the queue winning the race), it copies exactly
`min (buffer length) (payload length)` bytes into the buffer — the copied
prefix comes from the payload, the rest of the buffer is untouched, and the
buffer keeps its length — and returns that count, the message's topic as
the source address, and no error, even when the payload is longer than the
buffer. -/
theorem readFrom_dequeue (conn : MQTTConn) (p : List Nat) (now : Time)
    (msg : MqttMessage) (rest : List MqttMessage)
    (hq : conn.readChan = msg :: rest)
    (hdl : conn.readDeadline.isZero = true
      ∨ 0 < conn.readDeadline.sub now) :
    ReadFrom conn p now .msgArrived =
      some ({ n := min p.length msg.payload.length,
              addr := some (TopicAddr msg.topic),
              err := none,
              buf := goCopy p msg.payload },
            { conn with readChan := rest })
    ∧ (goCopy p msg.payload).take (min p.length msg.payload.length) =
        msg.payload.take (min p.length msg.payload.length)
    ∧ (goCopy p msg.payload).drop (min p.length msg.payload.length) =
        p.drop (min p.length msg.payload.length)
    ∧ (goCopy p msg.payload).length = p.length := by
  refine ⟨?_, goCopy_take p msg.payload, goCopy_drop p msg.payload,
    goCopy_length p msg.payload⟩
  unfold ReadFrom
  rcases hdl with hz | hpos
  · rw [if_pos hz, hq]
    rfl
  · by_cases hz : conn.readDeadline.isZero
    · rw [if_pos hz, hq]
      rfl
    · rw [if_neg hz, if_neg (not_le.mpr hpos), hq]
      rfl

/-- C5, witness: the spec's example — a 4-byte buffer receiving an 8-byte
payload yields 4 bytes copied, the sender's topic, and no error. -/
theorem readFrom_dequeue_witness :
    ReadFrom ⟨0, false, "", 0, ⟨0⟩, ⟨0⟩,
        [⟨"top", [1, 2, 3, 4, 5, 6, 7, 8]⟩], 2⟩ [9, 9, 9, 9] ⟨0⟩
        .msgArrived =
      some ({ n := 4, addr := some (TopicAddr "top"), err := none,
              buf := [1, 2, 3, 4] },
            ⟨0, false, "", 0, ⟨0⟩, ⟨0⟩, [], 2⟩)
    ∧ ([1, 2, 3, 4] : List Nat).take 4 =
        ([1, 2, 3, 4, 5, 6, 7, 8] : List Nat).take 4
    ∧ ([1, 2, 3, 4] : List Nat).drop 4 = ([9, 9, 9, 9] : List Nat).drop 4
    ∧ ([1, 2, 3, 4] : List Nat).length = 4 :=
  readFrom_dequeue ⟨0, false, "", 0, ⟨0⟩, ⟨0⟩,
      [⟨"top", [1, 2, 3, 4, 5, 6, 7, 8]⟩], 2⟩ [9, 9, 9, 9] ⟨0⟩
      ⟨"top", [1, 2, 3, 4, 5, 6, 7, 8]⟩ [] rfl (Or.inl rfl)

/-- C7: whenever `WriteTo` to a matching-family destination succeeds (nil
error) and the adapter's default QoS is in byte range, the full result is:
bytes written equal to the payload length, and exactly one publish, to the
destination's rendered topic, at the default QoS, non-retained, carrying
the payload. -/
theorem writeTo_success (conn : MQTTConn) (b : List Nat) (addr : NetAddr)
    (now : Time) (tok : TokenBehavior)
    (hfam : addr.network = "mqttTopic")
    (hq0 : 0 ≤ conn.defaultQoS) (hq1 : conn.defaultQoS < 256)
    (hok : (WriteTo conn b addr now tok).1.2 = none) :
    WriteTo conn b addr now tok =
      ((b.length, none),
       ⟨[⟨addr.render, conn.defaultQoS.toNat, false, b⟩]⟩) := by
  have hb : publishEffect conn b addr =
      ⟨[⟨addr.render, conn.defaultQoS.toNat, false, b⟩]⟩ := by
    unfold publishEffect goByte
    rw [Int.emod_eq_of_lt hq0 hq1]
  have hne : ¬ addr.network ≠ (TopicAddr "").network := by
    simp [TopicAddr, hfam]
  unfold WriteTo at hok ⊢
  rw [if_neg hne] at hok ⊢
  by_cases hz : conn.writeDeadline.isZero
  · rw [if_pos hz] at hok ⊢
    cases hfe : tok.finalErr with
    | some e => rw [hfe] at hok; exact absurd hok (by simp)
    | none => rw [hb]
  · rw [if_neg hz] at hok ⊢
    by_cases hle : conn.writeDeadline.sub now ≤ 0
    · rw [if_pos hle] at hok
      exact absurd hok (by simp)
    · rw [if_neg hle] at hok ⊢
      cases hfe : (if tok.completesInTime then tok.finalErr else none) with
      | some e => rw [hfe] at hok; exact absurd hok (by simp)
      | none => rw [hb]

/-- C7, witness: a successful unbounded-wait publish of a 3-byte payload to
topic "t" at default QoS 1. -/
theorem writeTo_success_witness :
    WriteTo ⟨0, false, "", 1, ⟨0⟩, ⟨0⟩, [], 2⟩ [5, 6, 7] (TopicAddr "t")
        ⟨0⟩ ⟨true, none⟩ =
      ((3, none), ⟨[⟨"t", 1, false, [5, 6, 7]⟩]⟩) :=
  writeTo_success _ _ _ _ _ rfl (by decide) (by decide) rfl

/-- C8: wrapping any client capability succeeds unconditionally (nil
error), allocates an empty inbound queue of fixed capacity 2, performs no
subscription, and leaves the default destination unset (flag false, topic
empty) and the default QoS at 0; both deadlines start at the Go zero value
and the given client handle is stored. -/
theorem createMQTTConn_spec (client : Nat) :
    (CreateMQTTConn client).1.2 = none
    ∧ (CreateMQTTConn client).1.1.readChan = []
    ∧ (CreateMQTTConn client).1.1.readChanCap = 2
    ∧ (CreateMQTTConn client).2.subscribeCalls = []
    ∧ (CreateMQTTConn client).1.1.defaultTopicSet = false
    ∧ (CreateMQTTConn client).1.1.defaultTopic = ""
    ∧ (CreateMQTTConn client).1.1.defaultQoS = 0
    ∧ (CreateMQTTConn client).1.1.readDeadline = ⟨0⟩
    ∧ (CreateMQTTConn client).1.1.writeDeadline = ⟨0⟩
    ∧ (CreateMQTTConn client).1.1.client = client :=
  ⟨rfl, rfl, rfl, rfl, rfl, rfl, rfl, rfl, rfl, rfl⟩

/-- C9: `SetDeadline` sets both deadlines to `t`; `SetReadDeadline` sets
only the read deadline and `SetWriteDeadline` only the write deadline; none
of the three touches any other field of the adapter, and each returns a nil
error. -/
theorem deadline_setters (conn : MQTTConn) (t : Time) :
    ((SetDeadline conn t).1.readDeadline = t
      ∧ (SetDeadline conn t).1.writeDeadline = t
      ∧ (SetDeadline conn t).1.client = conn.client
      ∧ (SetDeadline conn t).1.defaultTopicSet = conn.defaultTopicSet
      ∧ (SetDeadline conn t).1.defaultTopic = conn.defaultTopic
      ∧ (SetDeadline conn t).1.defaultQoS = conn.defaultQoS
      ∧ (SetDeadline conn t).1.readChan = conn.readChan
      ∧ (SetDeadline conn t).1.readChanCap = conn.readChanCap
      ∧ (SetDeadline conn t).2 = none)
    ∧ ((SetReadDeadline conn t).1.readDeadline = t
      ∧ (SetReadDeadline conn t).1.writeDeadline = conn.writeDeadline
      ∧ (SetReadDeadline conn t).1.client = conn.client
      ∧ (SetReadDeadline conn t).1.defaultTopicSet = conn.defaultTopicSet
      ∧ (SetReadDeadline conn t).1.defaultTopic = conn.defaultTopic
      ∧ (SetReadDeadline conn t).1.defaultQoS = conn.defaultQoS
      ∧ (SetReadDeadline conn t).1.readChan = conn.readChan
      ∧ (SetReadDeadline conn t).1.readChanCap = conn.readChanCap
      ∧ (SetReadDeadline conn t).2 = none)
    ∧ ((SetWriteDeadline conn t).1.writeDeadline = t
      ∧ (SetWriteDeadline conn t).1.readDeadline = conn.readDeadline
      ∧ (SetWriteDeadline conn t).1.client = conn.client
      ∧ (SetWriteDeadline conn t).1.defaultTopicSet = conn.defaultTopicSet
      ∧ (SetWriteDeadline conn t).1.defaultTopic = conn.defaultTopic
      ∧ (SetWriteDeadline conn t).1.defaultQoS = conn.defaultQoS
      ∧ (SetWriteDeadline conn t).1.readChan = conn.readChan
      ∧ (SetWriteDeadline conn t).1.readChanCap = conn.readChanCap
      ∧ (SetWriteDeadline conn t).2 = none) :=
  ⟨⟨rfl, rfl, rfl, rfl, rfl, rfl, rfl, rfl, rfl⟩,
   ⟨rfl, rfl, rfl, rfl, rfl, rfl, rfl, rfl, rfl⟩,
   ⟨rfl, rfl, rfl, rfl, rfl, rfl, rfl, rfl, rfl⟩⟩

/-- C10: whenever `ReadFrom` returns an error whose is-timeout marker is
true — the elapsed-deadline path or the timer-win path — it reports zero
bytes copied and a nil (`none`) source address, never an empty-topic
address value. -/
theorem readFrom_timeout_nil_addr (conn : MQTTConn) (p : List Nat)
    (now : Time) (race : ReadOutcome) (r : ReadReturn) (conn2 : MQTTConn)
    (hret : ReadFrom conn p now race = some (r, conn2))
    (e : ConnError) (herr : r.err = some e)
    (htime : e.isTimeoutError = true) :
    r.n = 0 ∧ r.addr = none := by
  unfold ReadFrom at hret
  split at hret
  · split at hret
    · simp only [Option.some.injEq, Prod.mk.injEq, deliverMsg] at hret
      rw [← hret.1] at herr
      exact absurd herr (by simp)
    · exact absurd hret (by simp)
  · split at hret
    · simp only [Option.some.injEq, Prod.mk.injEq] at hret
      rw [← hret.1]
      exact ⟨rfl, rfl⟩
    · split at hret
      · simp only [Option.some.injEq, Prod.mk.injEq] at hret
        rw [← hret.1]
        exact ⟨rfl, rfl⟩
      · simp only [Option.some.injEq, Prod.mk.injEq, deliverMsg] at hret
        rw [← hret.1] at herr
        exact absurd herr (by simp)
      · exact absurd hret (by simp)

/-- C10, witness: the timer wins against an empty queue under a deadline 4ns
away; the returned count is zero and the address is nil. -/
theorem readFrom_timeout_nil_addr_witness :
    ReadFrom ⟨0, false, "", 0, ⟨5⟩, ⟨0⟩, [], 2⟩ [3] ⟨1⟩ .timerFired =
      some (⟨0, none, some readTimedOut, [3]⟩,
            ⟨0, false, "", 0, ⟨5⟩, ⟨0⟩, [], 2⟩)
    ∧ (0 : Nat) = 0 ∧ (none : Option NetAddr) = none :=
  ⟨by decide,
   readFrom_timeout_nil_addr ⟨0, false, "", 0, ⟨5⟩, ⟨0⟩, [], 2⟩ [3] ⟨1⟩
     .timerFired ⟨0, none, some readTimedOut, [3]⟩
     ⟨0, false, "", 0, ⟨5⟩, ⟨0⟩, [], 2⟩ (by decide) readTimedOut rfl rfl⟩

end Mqttconn
